import Mathlib

/-!
Verification of the orion fuzzing-decision / grizzly-reduce-monitor services.

Shallow embedding of
  services/fuzzing-decision/src/fuzzing_decision/decision/pool.py
  services/grizzly-reduce-monitor/src/grizzly_reduce_monitor/monitor.py
into Lean.  Python dicts are modelled as association lists that preserve
insertion order (later assignment to an existing key replaces the value in
place), timestamps as natural numbers of seconds since an arbitrary epoch
(the source renders them with stringDate, which is order preserving), and
the external Taskcluster collaborators as explicit environment records.
-/

namespace Orion

/-! ### Constants

From fuzzing_decision/decision/__init__.py (values as exercised by the
repository's own tests in tests/test_pool.py).  HOOK_PREFIX and
WORKER_POOL_PREFIX from the source are named HOOK_GROUP and
WORKER_POOL_GROUP here. -/

def SCHEDULER_ID : String := "-"

def PROVISIONER_ID : String := "proj-fuzzing"

def HOOK_GROUP : String := "project-fuzzing"

def WORKER_POOL_GROUP : String := "proj-fuzzing"

def DECISION_TASK_SECRET : String := "project/fuzzing/decision"

def OWNER_EMAIL : String := "fuzzing@allizom.org"

/-- `parse_time` values used by build_resources: parse_time("15m") = 900. -/
def FIFTEEN_MINUTES : Nat := 900

/-- parse_time("12h") = 43200, the reregistrationTimeout in pool.py. -/
def TWELVE_HOURS : Nat := 43200

/-- fromNow("1 week") offset in seconds, used for task expiry. -/
def ONE_WEEK : Nat := 604800

/-- math.ceil(a / b) for natural numbers, exact for b > 0 (the source uses
float division followed by math.ceil). -/
def ceilDivNat (a b : Nat) : Nat := (a + b - 1) / b

/-- Insert-or-replace into an insertion-ordered association list; this is the
semantics of `d[k] = v` on a Python dict. -/
def dictInsert {α : Type} (m : List (String × α)) (k : String) (v : α) :
    List (String × α) :=
  if m.any (fun kv => kv.1 == k) then
    m.map (fun kv => if kv.1 == k then (k, v) else kv)
  else m ++ [(k, v)]

/-! ### Capabilities (pool.py lines 38-58) -/

def DOCKER_WORKER_DEVICES : List String :=
  ["cpu", "hostSharedMemory", "loopbackAudio", "loopbackVideo", "kvm"]

/-- The `capabilities` dict of a task payload.  `devices = none` means the
"devices" key is absent, `some l` means it is present with entries `l`;
likewise `privileged = none` means the "privileged" key is absent. -/
structure Caps where
  devices : Option (List (String × Bool))
  privileged : Option Bool
deriving Repr, DecidableEq

/-- The initial `"capabilities": {}` every task dict in pool.py carries. -/
def emptyCaps : Caps := { devices := none, privileged := none }

/-- Core of add_capabilities_for_scopes (pool.py lines 47-58): setdefault
"devices" to {}, set devices.<d> = True for each device-capability scope,
set privileged = True if the privileged scope is present, then delete the
"devices" key again if it stayed empty.  The (empty or not) capabilities
dict itself is never deleted. -/
def applyCapabilities (scopes : List String) (caps : Caps) : Caps :=
  let devs0 := caps.devices.getD []
  let devs := DOCKER_WORKER_DEVICES.foldl
    (fun d dev =>
      if scopes.contains ("docker-worker:capability:device:" ++ dev) then
        dictInsert d dev true
      else d)
    devs0
  let priv :=
    if scopes.contains "docker-worker:capability:privileged" then some true
    else caps.privileged
  { devices := if devs.isEmpty then none else some devs, privileged := priv }

/-! ### Task descriptors -/

/-- A value of the pool's `artifacts` mapping: local path maps to
{url, type}. -/
structure ArtifactValue where
  url : String
  type : String
deriving Repr, DecidableEq

/-- An entry of the emitted artifact map (keyed by remote url). -/
structure ArtifactEntry where
  expires : Nat
  path : String
  type : String
deriving Repr, DecidableEq

structure TaskPayload where
  artifacts : List (String × ArtifactEntry)
  /-- `some c` means the payload dict has a "capabilities" key with value
  `c`; `none` means the key is absent. -/
  capabilities : Option Caps
  env : List (String × String)
  image : String
  maxRunTime : Nat
deriving Repr, DecidableEq

structure TaskDef where
  taskGroupId : String
  dependencies : List String
  created : Nat
  deadline : Nat
  expires : Nat
  name : String
  payload : TaskPayload
  provisionerId : String
  workerType : String
  schedulerId : String
  scopes : List String
deriving Repr, DecidableEq

/-- add_capabilities_for_scopes (pool.py lines 47-58).  The source mutates
`task["payload"]["capabilities"]` in place (raising if the key were absent;
every call site sets it to {} first), so here the capabilities value, when
present, is rewritten by applyCapabilities. -/
def add_capabilities_for_scopes (task : TaskDef) : TaskDef :=
  { task with
    payload := { task.payload with
      capabilities := task.payload.capabilities.map (applyCapabilities task.scopes) } }

/-! ### PoolConfiguration (pool.py lines 128-359) -/

/-- Result of `self.create_preprocess()`.  create_preprocess is defined in
fuzzing_decision/common/pool.py, which is not under src/; per the spec it
merges the `preprocess` partial configuration into the pool and returns the
merged configuration, or None when no preprocess stage is declared.  Only
the fields build_tasks reads from it are modelled. -/
structure PreprocessResult where
  max_run_time : Nat
  container : String
  scopes : List String
  artifacts : List (String × ArtifactValue)
deriving Repr, DecidableEq

/-- A flattened single-target pool configuration (fields read by
decision/pool.py; flattening itself happens in the common module). -/
structure PoolConfiguration where
  pool_id : String
  platform : String
  cloud : String
  tasks : Nat
  max_run_time : Nat
  cycle_time : Nat
  scopes : List String
  artifacts : List (String × ArtifactValue)
  container : String
  imageset : String
  disk_size : Nat
  /-- Modelled from the spec: the value returned by create_preprocess()
  (common/pool.py, not under src/). -/
  preprocessResult : Option PreprocessResult
deriving Repr, DecidableEq

def PoolConfiguration.task_id (p : PoolConfiguration) : String :=
  p.platform ++ "-" ++ p.pool_id

/-- The worker-pool `config` dict built by build_resources (launchConfigs
are produced by the cloud-provider collaborator and passed through). -/
structure WorkerPoolConfig where
  minCapacity : Nat
  maxCapacity : Nat
  launchConfigs : List String
  registrationTimeout : Nat
  reregistrationTimeout : Nat
deriving Repr, DecidableEq

/-- The decision-task fields the claims are about. -/
structure DecisionTask where
  env : List (String × String)
  capabilities : Option Caps
  workerType : String
  scopes : List String
deriving Repr, DecidableEq

/-- The three resources returned by build_resources: worker pool, hook,
role. -/
structure BuiltResources where
  workerPoolId : String
  poolConfig : WorkerPoolConfig
  hookId : String
  schedule : List String
  decisionTask : DecisionTask
  roleId : String
  roleScopes : List String
deriving Repr, DecidableEq

/-- The mandatory decision-task scope tuple of
PoolConfiguration.build_resources (pool.py lines 164-169). -/
def singleDecisionTaskScopes (p : PoolConfiguration) : List String :=
  ["queue:scheduler-id:" ++ SCHEDULER_ID,
   "queue:cancel-task:" ++ SCHEDULER_ID ++ "/*",
   "queue:create-task:highest:" ++ PROVISIONER_ID ++ "/" ++ p.task_id,
   "secrets:get:" ++ DECISION_TASK_SECRET]

/-- PoolConfiguration.build_resources (pool.py lines 133-243).
`launchConfigs` stands for provider.build_launch_configs(imageset,
machines, disk_size) and `crons` for self.cycle_crons() -- both produced by
collaborators outside this file's source (providers module / common
module).  `env`, when not none, is asserted disjoint from the reserved
payload env keys and then merged; the merge of disjoint keys is an
append. -/
def PoolConfiguration.build_resources (p : PoolConfiguration)
    (launchConfigs : List String) (crons : List String)
    (env : Option (List (String × String))) : BuiltResources :=
  let config : WorkerPoolConfig :=
    { minCapacity := 0
      maxCapacity :=
        max 1 (ceilDivNat p.max_run_time p.cycle_time) * p.tasks * 2 + 1
      launchConfigs := launchConfigs
      registrationTimeout := FIFTEEN_MINUTES
      reregistrationTimeout := TWELVE_HOURS }
  let decisionScopes := p.scopes ++ singleDecisionTaskScopes p
  let decisionTask : DecisionTask :=
    { env := [("TASKCLUSTER_SECRET", DECISION_TASK_SECRET)] ++ env.getD []
      capabilities := some (applyCapabilities decisionScopes emptyCaps)
      workerType := p.task_id
      scopes := decisionScopes }
  { workerPoolId := WORKER_POOL_GROUP ++ "/" ++ p.task_id
    poolConfig := config
    hookId := p.task_id
    schedule := crons
    decisionTask := decisionTask
    roleId := "hook-id:" ++ HOOK_GROUP ++ "/" ++ p.task_id
    roleScopes := decisionScopes }

/-- PoolConfiguration.artifact_map (pool.py lines 245-261), rendered for a
given artifacts mapping so the preprocess configuration can reuse it. -/
def artifact_map (artifacts : List (String × ArtifactValue)) (expires : Nat) :
    List (String × ArtifactEntry) :=
  let result := artifacts.foldl
    (fun m kv =>
      dictInsert m kv.2.url { expires := expires, path := kv.1, type := kv.2.type })
    []
  dictInsert result "project/fuzzing/private/logs"
    { expires := expires, path := "/logs/", type := "directory" }

/-- The preprocess task of build_tasks (pool.py lines 269-316). -/
def preprocessTask (p : PoolConfiguration) (pre : PreprocessResult)
    (parent : String) (now : Nat) (env : Option (List (String × String))) :
    TaskDef :=
  let task : TaskDef :=
    { taskGroupId := parent
      dependencies := [parent]
      created := now
      deadline := now + pre.max_run_time
      expires := now + ONE_WEEK
      name := "Fuzzing task " ++ p.task_id ++ " - preprocess"
      payload :=
        { artifacts := artifact_map pre.artifacts (now + ONE_WEEK)
          capabilities := some emptyCaps
          env := [("TASKCLUSTER_FUZZING_POOL", p.pool_id),
                  ("TASKCLUSTER_SECRET", DECISION_TASK_SECRET),
                  ("TASKCLUSTER_FUZZING_PREPROCESS", "1")]
          image := pre.container
          maxRunTime := pre.max_run_time }
      provisionerId := PROVISIONER_ID
      workerType := p.task_id
      schedulerId := SCHEDULER_ID
      scopes := pre.scopes ++ ["secrets:get:" ++ DECISION_TASK_SECRET] }
  let task := add_capabilities_for_scopes task
  { task with payload := { task.payload with
      env := task.payload.env ++ env.getD [] } }

/-- The i-th (1-based) work task of build_tasks (pool.py lines 318-359). -/
def workTask (p : PoolConfiguration) (parent : String) (now : Nat)
    (deps : List String) (i : Nat) (env : Option (List (String × String))) :
    TaskDef :=
  let task : TaskDef :=
    { taskGroupId := parent
      dependencies := deps
      created := now
      deadline := now + p.max_run_time
      expires := now + ONE_WEEK
      name := "Fuzzing task " ++ p.task_id ++ " - " ++ toString i ++ "/" ++
        toString p.tasks
      payload :=
        { artifacts := artifact_map p.artifacts (now + ONE_WEEK)
          capabilities := some emptyCaps
          env := [("TASKCLUSTER_FUZZING_POOL", p.pool_id),
                  ("TASKCLUSTER_SECRET", DECISION_TASK_SECRET)]
          image := p.container
          maxRunTime := p.max_run_time }
      provisionerId := PROVISIONER_ID
      workerType := p.task_id
      schedulerId := SCHEDULER_ID
      scopes := p.scopes ++ ["secrets:get:" ++ DECISION_TASK_SECRET] }
  let task := add_capabilities_for_scopes task
  { task with payload := { task.payload with
      env := task.payload.env ++ env.getD [] } }

/-- PoolConfiguration.build_tasks (pool.py lines 263-359).  `slug` models
the successive slugId() calls; `now` is datetime.utcnow().  When a
preprocess stage exists its task id is appended to the shared `deps` list,
so every work task depends on both the parent and the preprocess task. -/
def PoolConfiguration.build_tasks (p : PoolConfiguration) (parent : String)
    (now : Nat) (slug : Nat → String)
    (env : Option (List (String × String))) : List (String × TaskDef) :=
  match p.preprocessResult with
  | some pre =>
    let preId := slug 0
    (preId, preprocessTask p pre parent now env) ::
      (List.range p.tasks).map
        (fun i => (slug (i + 1), workTask p parent now [parent, preId] (i + 1) env))
  | none =>
    (List.range p.tasks).map
      (fun i => (slug i, workTask p parent now [parent] (i + 1) env))

/-! ### PoolConfigMap (pool.py lines 362-534) -/

/-- A pool-map declaration.  `iterpools` models the sequence of flattened
target PoolConfigurations produced by self.iterpools(); iterpools itself is
defined in fuzzing_decision/common/pool.py, which is not under src/ (per the
spec it yields one fully flattened PoolConfiguration per `apply_to`
target). -/
structure PoolConfigMap where
  pool_id : String
  platform : String
  cloud : String
  imageset : String
  disk_size : Nat
  scopes : List String
  iterpools : List PoolConfiguration
deriving Repr, DecidableEq

def PoolConfigMap.task_id (m : PoolConfigMap) : String :=
  m.platform ++ "-" ++ m.pool_id

/-- The mandatory decision-task scope tuple of
PoolConfigMap.build_resources (pool.py lines 398-402): unlike the
single-pool variant it has no queue:cancel-task entry. -/
def mapDecisionTaskScopes (m : PoolConfigMap) : List String :=
  ["queue:scheduler-id:" ++ SCHEDULER_ID,
   "queue:create-task:highest:" ++ PROVISIONER_ID ++ "/" ++ m.task_id,
   "secrets:get:" ++ DECISION_TASK_SECRET]

/-- PoolConfigMap.build_resources (pool.py lines 369-476).  The target
pools are materialized once (`pools = list(self.iterpools())`); all_scopes
is tuple(set(...)) of their chained scopes -- Python's set iteration order
is unspecified, so it is modelled as a duplicate-free list with the same
members.  As in the single-pool variant, launchConfigs and crons stand for
collaborator results. -/
def PoolConfigMap.build_resources (m : PoolConfigMap)
    (launchConfigs : List String) (crons : List String)
    (env : Option (List (String × String))) : BuiltResources :=
  let pools := m.iterpools
  let all_scopes := ((pools.map (fun p => p.scopes)).flatten).dedup
  let config : WorkerPoolConfig :=
    { minCapacity := 0
      maxCapacity := max ((pools.map (fun p => p.tasks)).sum * 2) 3
      launchConfigs := launchConfigs
      registrationTimeout := FIFTEEN_MINUTES
      reregistrationTimeout := TWELVE_HOURS }
  let decisionScopes := all_scopes ++ mapDecisionTaskScopes m
  let decisionTask : DecisionTask :=
    { env := [("TASKCLUSTER_SECRET", DECISION_TASK_SECRET)] ++ env.getD []
      capabilities := some (applyCapabilities decisionScopes emptyCaps)
      workerType := m.task_id
      scopes := decisionScopes }
  { workerPoolId := WORKER_POOL_GROUP ++ "/" ++ m.task_id
    poolConfig := config
    hookId := m.task_id
    schedule := crons
    decisionTask := decisionTask
    roleId := "hook-id:" ++ HOOK_GROUP ++ "/" ++ m.task_id
    roleScopes := decisionScopes }

/-! ### cancel_tasks (pool.py lines 61-125) -/

/-- Failures raised by the Taskcluster collaborators, by the substrings
cancel_tasks inspects: "No task-group with taskGroupId" on
queue.listTaskGroup, "No such hook" on hooks.listLastFires, and anything
else. -/
inductive TCError where
  | noTaskGroup : TCError
  | noSuchHook : TCError
  | other : String → TCError
deriving Repr, DecidableEq

structure TaskRun where
  state : String
deriving Repr, DecidableEq

structure TaskStatus where
  taskId : String
  runs : List TaskRun
deriving Repr, DecidableEq

/-- A task record returned by queue.listTaskGroup. -/
structure CandidateTask where
  status : TaskStatus
deriving Repr, DecidableEq

/-- An entry of hooks.listLastFires(...)["lastFires"]. -/
structure HookFire where
  taskId : String
  result : String
  firedBy : String
deriving Repr, DecidableEq

/-- How the iter_tasks_by_hook generator ends: normally, stopped early by a
swallowed "No such hook" failure, or by raising any other failure. -/
inductive IterEnd where
  | finished : IterEnd
  | hookMissing : IterEnd
  | failed : TCError → IterEnd
deriving Repr, DecidableEq

/-- The collaborator environment of one cancel_tasks run: TASK_ID from the
process environment, the hooks/queue services, and whether each cancelTask
call succeeds.  listTaskGroup pagination (continuation tokens) is folded
into a single task list per group id. -/
structure CancelEnv where
  selfTaskId : Option String
  lastFires : Except TCError (List HookFire)
  taskGroup : String → Except TCError (List CandidateTask)
  cancelOk : String → Bool

/-- The items yielded by iter_tasks_by_hook (pool.py lines 69-95) for a
fire list, paired with how the generator ends.  Unsuccessful fires are
skipped; a "No task-group" failure on a fire's group is swallowed and the
remaining fires are processed; a "No such hook" failure ends the generator
normally; any other failure is re-raised after the items yielded so far. -/
def fireItems (tg : String → Except TCError (List CandidateTask)) :
    List HookFire → List (CandidateTask × Bool) × IterEnd
  | [] => ([], IterEnd.finished)
  | fire :: rest =>
    if fire.result ≠ "success" then fireItems tg rest
    else
      match tg fire.taskId with
      | Except.error TCError.noTaskGroup => fireItems tg rest
      | Except.error TCError.noSuchHook => ([], IterEnd.hookMissing)
      | Except.error e => ([], IterEnd.failed e)
      | Except.ok tasks =>
        let tail := fireItems tg rest
        (tasks.map (fun t => (t, fire.firedBy == "schedule")) ++ tail.1, tail.2)

/-- iter_tasks_by_hook from the top: listLastFires may itself fail with
"No such hook" (swallowed, generator yields nothing) or another error. -/
def iterTasksByHook (env : CancelEnv) : List (CandidateTask × Bool) × IterEnd :=
  match env.lastFires with
  | Except.error TCError.noSuchHook => ([], IterEnd.hookMissing)
  | Except.error e => ([], IterEnd.failed e)
  | Except.ok fires => fireItems env.taskGroup fires

/-- Whether a candidate has at least one run in state pending or running
(pool.py lines 113-115). -/
def hasActiveRun (t : CandidateTask) : Bool :=
  t.status.runs.any (fun r => r.state == "pending" || r.state == "running")

/-- The selection loop of cancel_tasks (pool.py lines 97-116): walks the
yielded items accumulating tasks_to_cancel; returns none when the loop
early-returns because the currently executing task was found and its hook
firing was scheduled; the self task from a manual trigger is merely
skipped. -/
def collectCancellations (selfId : Option String) :
    List (CandidateTask × Bool) → List String → Option (List String)
  | [], acc => some acc
  | (t, sched) :: rest, acc =>
    if some t.status.taskId = selfId then
      if sched then none else collectCancellations selfId rest acc
    else if hasActiveRun t then
      collectCancellations selfId rest (acc ++ [t.status.taskId])
    else collectCancellations selfId rest acc

/-- cancel_tasks (pool.py lines 61-125), returning the list of
(task id, cancelTask succeeded) attempts it issues.  The generator is
consumed lazily: an early return on a scheduled self task prevents any
pending generator failure from surfacing; otherwise a failure left at the
end of the iteration propagates before any cancellation is issued.  A
failed cancelTask call is logged and the loop continues (pool.py lines
119-125). -/
def cancel_tasks (env : CancelEnv) : Except TCError (List (String × Bool)) :=
  let items := iterTasksByHook env
  match collectCancellations env.selfTaskId items.1 [] with
  | none => Except.ok []
  | some selected =>
    match items.2 with
    | IterEnd.failed e => Except.error e
    | _ => Except.ok (selected.map (fun id => (id, env.cancelOk id)))

/-- The ids cancel_tasks selects for cancellation: every discovered
candidate other than the self task that has a pending or running run, in
discovery order. -/
def selectedIds (selfId : Option String)
    (items : List (CandidateTask × Bool)) : List String :=
  (items.filter
      (fun tb => (!(some tb.1.status.taskId == selfId)) && hasActiveRun tb.1)).map
    (fun tb => tb.1.status.taskId)

/-! ### PoolConfigLoader (pool.py lines 537-550) -/

/-- REQUIRED_FIELDS / FIELD_TYPES of one of the two configuration classes;
their key-set containment check drives PoolConfigLoader.from_file. -/
structure PoolSchema where
  required : List String
  fieldTypes : List String
deriving Repr, DecidableEq

/-- `set(cls.FIELD_TYPES) >= set(data.keys()) >= cls.REQUIRED_FIELDS`
(pool.py line 543). -/
def fitsSchema (s : PoolSchema) (keys : List String) : Bool :=
  keys.all (fun k => s.fieldTypes.contains k) &&
    s.required.all (fun k => keys.contains k)

/-- Modelled from the spec: PoolConfiguration.REQUIRED_FIELDS is declared
in fuzzing_decision/common/pool.py, which is not under src/.  The spec's
data model (section 3) lists the single-pool attributes; the optional ones
(parents, preprocess, schedule_start, artifacts, run_as_admin) are left out
of the required set. -/
def poolConfigurationSchema : PoolSchema :=
  { required :=
      ["cloud", "command", "container", "cores_per_task", "cpu",
       "cycle_time", "demand", "disk_size", "gpu", "imageset", "macros",
       "max_run_time", "metal", "minimum_memory_per_core", "name",
       "platform", "scopes", "tasks"]
    fieldTypes :=
      ["cloud", "command", "container", "cores_per_task", "cpu",
       "cycle_time", "demand", "disk_size", "gpu", "imageset", "macros",
       "max_run_time", "metal", "minimum_memory_per_core", "name",
       "platform", "scopes", "tasks", "parents", "preprocess",
       "schedule_start", "artifacts", "run_as_admin"] }

/-- Modelled from the spec: PoolConfigMap.REQUIRED_FIELDS is declared in
fuzzing_decision/common/pool.py, which is not under src/.  Per the spec a
pool map is "apply_to + overrides": apply_to and a name are required, and
any single-pool field other than parents may appear as an override. -/
def poolConfigMapSchema : PoolSchema :=
  { required := ["apply_to", "name"]
    fieldTypes :=
      ["apply_to", "cloud", "command", "container", "cores_per_task", "cpu",
       "cycle_time", "demand", "disk_size", "gpu", "imageset", "macros",
       "max_run_time", "metal", "minimum_memory_per_core", "name",
       "platform", "scopes", "tasks", "preprocess", "schedule_start",
       "artifacts", "run_as_admin"] }

inductive LoadedKind where
  | configuration : LoadedKind
  | configMap : LoadedKind
deriving Repr, DecidableEq

/-- PoolConfigLoader.from_file (pool.py lines 538-550) on a document's key
set: the classes are tried in order (PoolConfiguration, PoolConfigMap) and
the first whose schema fits is instantiated; when neither fits a
RuntimeError is raised. -/
def from_file (keys : List String) : Except String LoadedKind :=
  if fitsSchema poolConfigurationSchema keys then Except.ok LoadedKind.configuration
  else if fitsSchema poolConfigMapSchema keys then Except.ok LoadedKind.configMap
  else Except.error "pool type could not be identified"

/-! ### ReductionMonitor (grizzly_reduce_monitor/monitor.py)

The monitor's interaction with the queue and crash-tracking collaborators
is modelled as an effect trace: every service call run() performs, in
order.  The values the read calls return are supplied through
`MonitorData`. -/

/-- One collaborator call made by the monitor. -/
inductive MonitorEffect where
  /-- CrashManager.list_crashes (read); the tag names which of the
  monitor's queries it is. -/
  | listCrashes : String → MonitorEffect
  /-- CrashManager.list_buckets for one tool (read). -/
  | listBuckets : String → MonitorEffect
  /-- index.findTask for a namespace (read). -/
  | findTask : String → MonitorEffect
  /-- queue.createTask (write). -/
  | createTask : String → MonitorEffect
  /-- CrashManager.update_testcase_quality (write). -/
  | updateQuality : Nat → Nat → MonitorEffect
deriving Repr, DecidableEq

/-- Whether an effect writes to an external service. -/
def MonitorEffect.isWrite : MonitorEffect → Bool
  | MonitorEffect.createTask _ => true
  | MonitorEffect.updateQuality _ _ => true
  | _ => false

/-- Quality values of the grizzly.common.reporter Quality enum (an external
collaborator of this repository), as used by monitor.py. -/
def QUALITY_REDUCING : Nat := 4

def QUALITY_UNREDUCED : Nat := 5

def QUALITY_REQUEST_SPECIFIC : Nat := 6

def QUALITY_NOT_REPRODUCIBLE : Nat := 10

/-- monitor.py line 37. -/
def GENERIC_PLATFORM : String := "linux"

/-- The platforms of TC_QUEUES (monitor.py lines 39-44); only the key set
matters to run(). -/
def TC_QUEUE_PLATFORMS : List String := ["linux", "windows"]

/-- A crash record as returned by CrashManager.list_crashes. -/
structure CrashRecord where
  id : Nat
  os : String
  testcase_quality : Nat
deriving Repr, DecidableEq

/-- The ReducibleCrash namedtuple (monitor.py lines 66-68). -/
structure ReducibleCrash where
  crash : Nat
  bucket : Option Nat
  tool : String
  description : String
  os : String
  quality : Nat
deriving Repr, DecidableEq

/-- The collaborator data one ReductionMonitor.run consumes.  The crash
selection pipeline (_fuzzmanager_get_crashes, _filter_reducing_unbucketed,
_get_unique_crashes, monitor.py lines 71-297) performs only list_buckets /
list_crashes reads; its yielded values -- pure functions of those reads and
of the random module -- are supplied here as `uniqueCrashes`, and the tools
for which the bucketed list_crashes query is issued as
`toolsWithBuckets`. -/
structure MonitorData where
  toolList : List String
  toolsWithBuckets : List String
  requestSpecificCrashes : List CrashRecord
  uniqueCrashes : List (String × ReducibleCrash)
  newTaskId : Nat → String
  createTaskOk : String → Bool
deriving Inhabited

/-- The effect trace of _fuzzmanager_get_crashes (monitor.py lines
71-202): one list_buckets call per tool in the tool list, one bucketed
list_crashes call per tool that contributed a bucket, and one final
unbucketed list_crashes call.  _filter_reducing_unbucketed and
_get_unique_crashes add no collaborator calls of their own. -/
def fuzzmanagerGetCrashesEffects (d : MonitorData) : List MonitorEffect :=
  d.toolList.map MonitorEffect.listBuckets ++
    d.toolsWithBuckets.map (fun t => MonitorEffect.listCrashes ("bucketed:" ++ t)) ++
    [MonitorEffect.listCrashes "unbucketed"]

/-- ReductionMonitor.queue_reduction_task (monitor.py lines 328-381) as an
effect trace.  With dry_run set it returns immediately, before any
collaborator call.  Otherwise: windows/macosx targets resolve their image
artifact task through the index service first (memoized per namespace; the
uncached first call is shown), then createTask is issued, and only when it
succeeds is the crash marked Q4 (reducing); a createTask failure is logged
and the quality update skipped. -/
def queue_reduction_task (dryRun : Bool) (d : MonitorData) (osName : String)
    (crashId : Nat) : List MonitorEffect :=
  if dryRun then []
  else
    let imageLookup :=
      if osName == "windows" then
        [MonitorEffect.findTask "project.fuzzing.orion.grizzly-win.master"]
      else if osName == "macosx" then
        [MonitorEffect.findTask "project.fuzzing.orion.grizzly-macos.master"]
      else []
    let taskId := d.newTaskId crashId
    imageLookup ++ [MonitorEffect.createTask taskId] ++
      (if d.createTaskOk taskId then
        [MonitorEffect.updateQuality crashId QUALITY_REDUCING]
      else [])

/-- The body of run()'s selection loop (monitor.py lines 412-436) for one
crash picked by _get_unique_crashes: Q5 crashes get a first generic-platform
reduction pass; other qualities go to their platform-specific queue when
one exists; otherwise the crash is marked not-reproducible -- guarded by
the dry_run flag. -/
def selectionStep (dryRun : Bool) (d : MonitorData) (r : ReducibleCrash) :
    List MonitorEffect :=
  if r.quality == QUALITY_UNREDUCED then
    queue_reduction_task dryRun d GENERIC_PLATFORM r.crash
  else if TC_QUEUE_PLATFORMS.contains r.os && r.os ≠ GENERIC_PLATFORM then
    queue_reduction_task dryRun d r.os r.crash
  else if !dryRun then
    [MonitorEffect.updateQuality r.crash QUALITY_NOT_REPRODUCIBLE]
  else []

/-- ReductionMonitor.run (monitor.py lines 383-442) as an effect trace:
first the Q6-on-unsupported-platform query, whose hits are moved to Q10
unless dry_run; then the crash selection pipeline's reads; then the
selection loop. -/
def ReductionMonitor.run (dryRun : Bool) (d : MonitorData) :
    List MonitorEffect :=
  [MonitorEffect.listCrashes "request-specific-unsupported-platform"] ++
    (d.requestSpecificCrashes.map
        (fun c =>
          if !dryRun then
            [MonitorEffect.updateQuality c.id QUALITY_NOT_REPRODUCIBLE]
          else [])).flatten ++
    fuzzmanagerGetCrashesEffects d ++
    (d.uniqueCrashes.map (fun sr => selectionStep dryRun d sr.2)).flatten

/-! ### Sample configurations used by witnesses and counterexamples -/

/-- A pool with max_run_time = cycle_time = 12h and tasks = 3, the shape
the spec's capacity example uses. -/
def samplePool : PoolConfiguration :=
  { pool_id := "pool1"
    platform := "linux"
    cloud := "gcp"
    tasks := 3
    max_run_time := 43200
    cycle_time := 43200
    scopes := []
    artifacts := []
    container := "MozillaSecurity/fuzzer:latest"
    imageset := "anything"
    disk_size := 10
    preprocessResult := none }

/-- A pool map applying to the sample pool. -/
def sampleMap : PoolConfigMap :=
  { pool_id := "map1"
    platform := "linux"
    cloud := "gcp"
    imageset := "anything"
    disk_size := 10
    scopes := []
    iterpools := [samplePool] }

/-! ### C1: single-pool worker capacity -/

/-- C1 counterexample: for max_run_time = cycle_time = 12h and tasks = 3
the emitted maxCapacity is 7, not ceil(max_run_time / cycle_time) * tasks
* 2 = 6 as the claim states -- the source adds 1 so a manually triggered
hook can run without cancelling a task. -/
theorem c1_capacity_cex :
    (samplePool.build_resources [] [] none).poolConfig.maxCapacity = 7 ∧
      ¬ (samplePool.build_resources [] [] none).poolConfig.maxCapacity =
        ceilDivNat samplePool.max_run_time samplePool.cycle_time *
          samplePool.tasks * 2 := by
  decide

/-- C1 (amended): for every single-target PoolConfiguration with positive
max_run_time and cycle_time, build_resources emits a worker pool whose
config has maxCapacity = ceil(max_run_time / cycle_time) * tasks * 2 + 1
and minCapacity = 0. -/
theorem c1_capacity_formula (p : PoolConfiguration)
    (launchConfigs crons : List String)
    (env : Option (List (String × String)))
    (hrt : 0 < p.max_run_time) (hct : 0 < p.cycle_time) :
    (p.build_resources launchConfigs crons env).poolConfig.maxCapacity =
      ceilDivNat p.max_run_time p.cycle_time * p.tasks * 2 + 1 ∧
    (p.build_resources launchConfigs crons env).poolConfig.minCapacity = 0 := by
  have h1 : 1 ≤ ceilDivNat p.max_run_time p.cycle_time := by
    unfold ceilDivNat
    rw [Nat.le_div_iff_mul_le hct]
    omega
  exact ⟨by simp [PoolConfiguration.build_resources, Nat.max_eq_right h1],
    by simp [PoolConfiguration.build_resources]⟩

/-- C1 witness: the amended formula evaluated on the sample pool. -/
theorem c1_capacity_witness :
    (samplePool.build_resources [] [] none).poolConfig.maxCapacity =
      ceilDivNat samplePool.max_run_time samplePool.cycle_time *
        samplePool.tasks * 2 + 1 ∧
    (samplePool.build_resources [] [] none).poolConfig.minCapacity = 0 :=
  c1_capacity_formula samplePool [] [] none (by decide) (by decide)

/-! ### C2: pool-map worker capacity and aggregated scopes -/

/-- C2: for every PoolConfigMap, build_resources emits a worker pool with
maxCapacity = max(2 * sum of target pools' task counts, 3) and
minCapacity = 0, and the decision task's scope set is the union of all
target pools' scopes with the mandatory decision-task scopes, the role
carrying the same scope set; the reduction ranges over the once
materialized target pool list. -/
theorem c2_map_resources (m : PoolConfigMap)
    (launchConfigs crons : List String)
    (env : Option (List (String × String))) :
    (m.build_resources launchConfigs crons env).poolConfig.maxCapacity =
      max (2 * (m.iterpools.map (fun p => p.tasks)).sum) 3 ∧
    (m.build_resources launchConfigs crons env).poolConfig.minCapacity = 0 ∧
    (∀ s : String,
      s ∈ (m.build_resources launchConfigs crons env).decisionTask.scopes ↔
        ((∃ p ∈ m.iterpools, s ∈ p.scopes) ∨ s ∈ mapDecisionTaskScopes m)) ∧
    (m.build_resources launchConfigs crons env).roleScopes =
      (m.build_resources launchConfigs crons env).decisionTask.scopes := by
  refine ⟨by simp [PoolConfigMap.build_resources, Nat.mul_comm], ?_, ?_, ?_⟩
  · simp [PoolConfigMap.build_resources]
  · intro s
    simp only [PoolConfigMap.build_resources, List.mem_append,
      List.mem_dedup, List.mem_flatten, List.mem_map]
    constructor
    · rintro (⟨l, ⟨p, hp, rfl⟩, hs⟩ | h)
      · exact Or.inl ⟨p, hp, hs⟩
      · exact Or.inr h
    · rintro (⟨p, hp, hs⟩ | h)
      · exact Or.inl ⟨p.scopes, ⟨p, hp, rfl⟩, hs⟩
      · exact Or.inr h
  · simp [PoolConfigMap.build_resources]

/-! ### C3: mandatory decision-task scopes and the role's scope set -/

/-- C3 counterexample: for a pool map whose target pools declare no scopes
the decision task's scope set does not contain the queue cancel-task scope
-- PoolConfigMap.build_resources builds its mandatory scope tuple from only
three scopes, without queue:cancel-task. -/
theorem c3_map_missing_cancel_scope :
    ¬ ("queue:cancel-task:" ++ SCHEDULER_ID ++ "/*") ∈
        (sampleMap.build_resources [] [] none).decisionTask.scopes := by
  decide

/-- C3 (amended): the single-pool decision task embeds the four mandatory
scopes (queue scheduler-id, queue cancel-task, queue create-task for its
own worker type, secret-read) unioned with the pool's scopes, while the
pool-map decision task embeds only three mandatory scopes -- it has no
queue cancel-task scope -- unioned with the target pools' scopes; in both
cases the emitted role carries exactly the decision task's scope set. -/
theorem c3_decision_scopes (p : PoolConfiguration) (m : PoolConfigMap)
    (launchConfigs crons : List String)
    (env : Option (List (String × String))) :
    ((p.build_resources launchConfigs crons env).decisionTask.scopes =
        p.scopes ++ singleDecisionTaskScopes p ∧
      singleDecisionTaskScopes p =
        ["queue:scheduler-id:" ++ SCHEDULER_ID,
         "queue:cancel-task:" ++ SCHEDULER_ID ++ "/*",
         "queue:create-task:highest:" ++ PROVISIONER_ID ++ "/" ++ p.task_id,
         "secrets:get:" ++ DECISION_TASK_SECRET] ∧
      (p.build_resources launchConfigs crons env).roleScopes =
        (p.build_resources launchConfigs crons env).decisionTask.scopes) ∧
    ((m.build_resources launchConfigs crons env).decisionTask.scopes =
        ((m.iterpools.map (fun q => q.scopes)).flatten).dedup ++
          mapDecisionTaskScopes m ∧
      mapDecisionTaskScopes m =
        ["queue:scheduler-id:" ++ SCHEDULER_ID,
         "queue:create-task:highest:" ++ PROVISIONER_ID ++ "/" ++ m.task_id,
         "secrets:get:" ++ DECISION_TASK_SECRET] ∧
      (m.build_resources launchConfigs crons env).roleScopes =
        (m.build_resources launchConfigs crons env).decisionTask.scopes) :=
  ⟨⟨rfl, rfl, rfl⟩, ⟨rfl, rfl, rfl⟩⟩

/-! ### C4: capability derivation -/

/-- A task with no capability scopes, its payload carrying the initial
empty capabilities dict every pool.py call site sets. -/
def c4Task : TaskDef :=
  { taskGroupId := "group"
    dependencies := []
    created := 0
    deadline := 1
    expires := 2
    name := "task"
    payload :=
      { artifacts := []
        capabilities := some emptyCaps
        env := []
        image := "img"
        maxRunTime := 1 }
    provisionerId := PROVISIONER_ID
    workerType := "linux-pool1"
    schedulerId := SCHEDULER_ID
    scopes := [] }

/-- The same task with the privileged and kvm capability scopes. -/
def c4TaskKvm : TaskDef :=
  { c4Task with
    scopes := ["docker-worker:capability:privileged",
               "docker-worker:capability:device:kvm"] }

/-- C4: add_capabilities_for_scopes on a task with no capability scopes
leaves the payload still carrying a capabilities object (the empty dict):
only the empty "devices" sub-object is deleted, the capabilities object
itself is never removed, contrary to the claim and to the repository's own
test expectations.  On the privileged+kvm scope set the derivation itself
matches the claim. -/
theorem c4_empty_capabilities_kept :
    (add_capabilities_for_scopes c4Task).payload.capabilities =
      some emptyCaps ∧
    ¬ (add_capabilities_for_scopes c4Task).payload.capabilities = none ∧
    (add_capabilities_for_scopes c4TaskKvm).payload.capabilities =
      some { devices := some [("kvm", true)], privileged := some true } := by
  decide

/-! ### Lemmas about dictInsert and artifact_map -/

theorem dictInsert_self_mem {α : Type} (m : List (String × α)) (k : String)
    (v : α) : (k, v) ∈ dictInsert m k v := by
  unfold dictInsert
  by_cases h : m.any (fun kv => kv.1 == k)
  · rw [if_pos h]
    obtain ⟨kv, hkv, hbeq⟩ := List.any_eq_true.mp h
    refine List.mem_map.mpr ⟨kv, hkv, ?_⟩
    simp [hbeq]
  · rw [if_neg h]
    exact List.mem_append_right _ (List.mem_singleton.mpr rfl)

theorem dictInsert_entry_pred {α : Type} (P : α → Prop)
    (m : List (String × α)) (k : String) (v : α)
    (hm : ∀ kv ∈ m, P kv.2) (hv : P v) :
    ∀ kv ∈ dictInsert m k v, P kv.2 := by
  intro kv hkv
  unfold dictInsert at hkv
  by_cases h : m.any (fun kv => kv.1 == k)
  · rw [if_pos h] at hkv
    obtain ⟨kv0, h0, heq⟩ := List.mem_map.mp hkv
    by_cases hb : kv0.1 == k
    · rw [if_pos hb] at heq
      rw [← heq]
      exact hv
    · rw [if_neg hb] at heq
      rw [← heq]
      exact hm kv0 h0
  · rw [if_neg h] at hkv
    rcases List.mem_append.mp hkv with h1 | h1
    · exact hm kv h1
    · rw [List.mem_singleton.mp h1]
      exact hv

theorem artifactFold_expires (arts : List (String × ArtifactValue))
    (e : Nat) (init : List (String × ArtifactEntry))
    (h : ∀ kv ∈ init, kv.2.expires = e) :
    ∀ kv ∈ arts.foldl
        (fun m kv =>
          dictInsert m kv.2.url
            { expires := e, path := kv.1, type := kv.2.type }) init,
      kv.2.expires = e := by
  induction arts generalizing init with
  | nil => exact h
  | cons a rest ih =>
    exact ih _ (dictInsert_entry_pred (fun (entry : ArtifactEntry) => entry.expires = e) _ _ _ h rfl)

/-- Every entry of an artifact_map carries the expires value the map was
rendered with. -/
theorem artifact_map_expires (arts : List (String × ArtifactValue)) (e : Nat) :
    ∀ kv ∈ artifact_map arts e, kv.2.expires = e := by
  unfold artifact_map
  exact dictInsert_entry_pred (fun (entry : ArtifactEntry) => entry.expires = e) _ _ _
    (artifactFold_expires arts e [] (by intro kv h; cases h)) rfl

/-- The mandatory log-directory artifact is always present in an
artifact_map. -/
theorem artifact_map_logs (arts : List (String × ArtifactValue)) (e : Nat) :
    ("project/fuzzing/private/logs",
      ({ expires := e, path := "/logs/", type := "directory" } : ArtifactEntry)) ∈
      artifact_map arts e :=
  dictInsert_self_mem _ _ _

/-! ### C7: task fan-out and dependencies -/

/-- C7: with a preprocess stage, build_tasks yields the preprocess task
first -- depending exactly on the parent task and carrying
TASKCLUSTER_FUZZING_PREPROCESS=1 -- followed by exactly `tasks` work tasks
each depending on the parent and the preprocess task ids; without one it
yields exactly `tasks` work tasks depending only on the parent; the i-th
work task's name embeds its 1-based index and the total count. -/
theorem c7_task_fanout (p : PoolConfiguration) (parent : String) (now : Nat)
    (slug : Nat → String) (env : Option (List (String × String))) :
    (∀ pre, p.preprocessResult = some pre →
      ∃ preId preTask rest,
        p.build_tasks parent now slug env = (preId, preTask) :: rest ∧
        preTask.dependencies = [parent] ∧
        ("TASKCLUSTER_FUZZING_PREPROCESS", "1") ∈ preTask.payload.env ∧
        rest.length = p.tasks ∧
        ∀ i (hi : i < rest.length),
          (rest.get ⟨i, hi⟩).2.dependencies = [parent, preId] ∧
          (rest.get ⟨i, hi⟩).2.name =
            "Fuzzing task " ++ p.task_id ++ " - " ++ toString (i + 1) ++ "/" ++
              toString p.tasks) ∧
    (p.preprocessResult = none →
      (p.build_tasks parent now slug env).length = p.tasks ∧
      ∀ i (hi : i < (p.build_tasks parent now slug env).length),
        ((p.build_tasks parent now slug env).get ⟨i, hi⟩).2.dependencies =
          [parent] ∧
        ((p.build_tasks parent now slug env).get ⟨i, hi⟩).2.name =
          "Fuzzing task " ++ p.task_id ++ " - " ++ toString (i + 1) ++ "/" ++
            toString p.tasks) := by
  constructor
  · intro pre hpre
    refine ⟨slug 0, preprocessTask p pre parent now env,
      (List.range p.tasks).map
        (fun i => (slug (i + 1), workTask p parent now [parent, slug 0] (i + 1) env)),
      ?_, rfl, ?_, by simp, ?_⟩
    · simp [PoolConfiguration.build_tasks, hpre]
    · show ("TASKCLUSTER_FUZZING_PREPROCESS", "1") ∈
        [("TASKCLUSTER_FUZZING_POOL", p.pool_id),
         ("TASKCLUSTER_SECRET", DECISION_TASK_SECRET),
         ("TASKCLUSTER_FUZZING_PREPROCESS", "1")] ++ env.getD []
      simp
    · intro i hi
      simp only [List.get_eq_getElem, List.getElem_map, List.getElem_range]
      exact ⟨rfl, rfl⟩
  · intro hpre
    refine ⟨by simp [PoolConfiguration.build_tasks, hpre], ?_⟩
    intro i hi
    simp only [PoolConfiguration.build_tasks, hpre, List.get_eq_getElem,
      List.getElem_map, List.getElem_range]
    exact ⟨rfl, rfl⟩

/-- A preprocess stage configuration for the sample pool. -/
def samplePreCfg : PreprocessResult :=
  { max_run_time := 600
    container := "MozillaSecurity/fuzzer:latest"
    scopes := []
    artifacts := [] }

/-- The sample pool with a preprocess stage. -/
def samplePre : PoolConfiguration :=
  { samplePool with
    pool_id := "pre-pool"
    tasks := 1
    max_run_time := 3600
    preprocessResult := some samplePreCfg }

def sampleSlug : Nat → String := fun n => "slug" ++ toString n

/-- C7 witness: the fan-out shape evaluated on the preprocess-carrying
sample pool. -/
theorem c7_task_fanout_witness :
    ∃ preId preTask rest,
      samplePre.build_tasks "parent" 0 sampleSlug none =
        (preId, preTask) :: rest ∧
      preTask.dependencies = ["parent"] ∧
      ("TASKCLUSTER_FUZZING_PREPROCESS", "1") ∈ preTask.payload.env ∧
      rest.length = samplePre.tasks ∧
      ∀ i (hi : i < rest.length),
        (rest.get ⟨i, hi⟩).2.dependencies = ["parent", preId] ∧
        (rest.get ⟨i, hi⟩).2.name =
          "Fuzzing task " ++ samplePre.task_id ++ " - " ++ toString (i + 1) ++
            "/" ++ toString samplePre.tasks :=
  (c7_task_fanout samplePre "parent" 0 sampleSlug none).1 samplePreCfg rfl

/-! ### C8: timestamps and artifact expiry -/

/-- A pool whose max_run_time exceeds the one-week expiry window. -/
def poolLong : PoolConfiguration :=
  { samplePool with max_run_time := 1209600, tasks := 1 }

/-- C8 counterexample: a pool with max_run_time of two weeks (positive) has
its work task's deadline (now + max_run_time) after its expires (now + one
week), so created < deadline ≤ expires fails even though max_run_time > 0. -/
theorem c8_timestamps_cex :
    0 < poolLong.max_run_time ∧
    ∃ it ∈ poolLong.build_tasks "parent" 0 (fun _ => "id0") none,
      it.2.expires < it.2.deadline := by
  decide

/-- C8 (amended): for every PoolConfiguration whose max_run_time (and
preprocess max_run_time, when a preprocess stage exists) is positive and at
most the one-week expiry window, every task yielded by build_tasks
satisfies created < deadline ≤ expires, its artifact map contains the
mandatory project/fuzzing/private/logs directory artifact, and every
artifact entry's expires equals the task's own expires. -/
theorem c8_timestamps (p : PoolConfiguration) (parent : String) (now : Nat)
    (slug : Nat → String) (env : Option (List (String × String)))
    (h1 : 0 < p.max_run_time) (h2 : p.max_run_time ≤ ONE_WEEK)
    (h3 : ∀ pre, p.preprocessResult = some pre →
      0 < pre.max_run_time ∧ pre.max_run_time ≤ ONE_WEEK) :
    ∀ it ∈ p.build_tasks parent now slug env,
      it.2.created < it.2.deadline ∧
      it.2.deadline ≤ it.2.expires ∧
      ("project/fuzzing/private/logs",
        ({ expires := it.2.expires, path := "/logs/",
           type := "directory" } : ArtifactEntry)) ∈ it.2.payload.artifacts ∧
      ∀ kv ∈ it.2.payload.artifacts, kv.2.expires = it.2.expires := by
  intro it hit
  cases hpre : p.preprocessResult with
  | some pre =>
    rw [PoolConfiguration.build_tasks, hpre] at hit
    obtain ⟨hp1, hp2⟩ := h3 pre hpre
    rcases List.mem_cons.mp hit with heq | hmem
    · subst heq
      refine ⟨?_, ?_, ?_, ?_⟩
      · show now < now + pre.max_run_time
        omega
      · show now + pre.max_run_time ≤ now + ONE_WEEK
        omega
      · exact artifact_map_logs pre.artifacts (now + ONE_WEEK)
      · exact artifact_map_expires pre.artifacts (now + ONE_WEEK)
    · obtain ⟨i, _, heq⟩ := List.mem_map.mp hmem
      subst heq
      refine ⟨?_, ?_, ?_, ?_⟩
      · show now < now + p.max_run_time
        omega
      · show now + p.max_run_time ≤ now + ONE_WEEK
        omega
      · exact artifact_map_logs p.artifacts (now + ONE_WEEK)
      · exact artifact_map_expires p.artifacts (now + ONE_WEEK)
  | none =>
    rw [PoolConfiguration.build_tasks, hpre] at hit
    obtain ⟨i, _, heq⟩ := List.mem_map.mp hit
    subst heq
    refine ⟨?_, ?_, ?_, ?_⟩
    · show now < now + p.max_run_time
      omega
    · show now + p.max_run_time ≤ now + ONE_WEEK
      omega
    · exact artifact_map_logs p.artifacts (now + ONE_WEEK)
    · exact artifact_map_expires p.artifacts (now + ONE_WEEK)

/-- C8 witness: the amended invariant evaluated at the preprocess task of
the preprocess-carrying sample pool. -/
theorem c8_timestamps_witness :
    (preprocessTask samplePre samplePreCfg "parent" 0 none).created <
      (preprocessTask samplePre samplePreCfg "parent" 0 none).deadline ∧
    (preprocessTask samplePre samplePreCfg "parent" 0 none).deadline ≤
      (preprocessTask samplePre samplePreCfg "parent" 0 none).expires ∧
    ("project/fuzzing/private/logs",
      ({ expires := (preprocessTask samplePre samplePreCfg "parent" 0 none).expires,
         path := "/logs/", type := "directory" } : ArtifactEntry)) ∈
      (preprocessTask samplePre samplePreCfg "parent" 0 none).payload.artifacts := by
  have h := c8_timestamps samplePre "parent" 0 sampleSlug none (by decide) (by decide)
    (fun pre hpre => by
      rw [show samplePre.preprocessResult = some samplePreCfg from rfl] at hpre
      cases hpre
      exact ⟨by decide, by decide⟩)
    (sampleSlug 0, preprocessTask samplePre samplePreCfg "parent" 0 none)
    (by decide)
  exact ⟨h.1, h.2.1, h.2.2.1⟩

/-! ### C5 and C6: the cancellation sweep -/

/-- If the currently executing task is among the yielded items with a
scheduled firing, the selection loop early-returns (whatever was
accumulated so far is dropped). -/
theorem collectCancellations_none (selfId : Option String)
    (items : List (CandidateTask × Bool))
    (hex : ∃ tb ∈ items, tb.2 = true ∧ some tb.1.status.taskId = selfId) :
    ∀ acc, collectCancellations selfId items acc = none := by
  induction items with
  | nil =>
    obtain ⟨tb, htb, _⟩ := hex
    cases htb
  | cons hd rest ih =>
    obtain ⟨t, sched⟩ := hd
    intro acc
    obtain ⟨tb, htb, hb, hid⟩ := hex
    simp only [collectCancellations]
    rcases List.mem_cons.mp htb with heq | hmem
    · subst heq
      rw [if_pos hid, if_pos hb]
    · split_ifs with h1 h2
      · rfl
      · exact ih ⟨tb, hmem, hb, hid⟩ acc
      · exact ih ⟨tb, hmem, hb, hid⟩ _
      · exact ih ⟨tb, hmem, hb, hid⟩ acc

/-- If the currently executing task appears only with manual firings, the
selection loop completes and selects exactly the non-self candidates with
a pending or running run, in order. -/
theorem collectCancellations_some (selfId : Option String)
    (items : List (CandidateTask × Bool))
    (hall : ∀ tb ∈ items, some tb.1.status.taskId = selfId → tb.2 = false) :
    ∀ acc, collectCancellations selfId items acc =
      some (acc ++ selectedIds selfId items) := by
  induction items with
  | nil => intro acc; simp [collectCancellations, selectedIds]
  | cons hd rest ih =>
    obtain ⟨t, sched⟩ := hd
    intro acc
    have hrest : ∀ tb ∈ rest, some tb.1.status.taskId = selfId → tb.2 = false :=
      fun tb hm => hall tb (List.mem_cons_of_mem _ hm)
    simp only [collectCancellations]
    by_cases h1 : some t.status.taskId = selfId
    · rw [if_pos h1]
      have hb : sched = false := hall (t, sched) (List.mem_cons_self _ _) h1
      subst hb
      rw [if_neg (by simp), ih hrest acc]
      have hsel : selectedIds selfId ((t, false) :: rest) =
          selectedIds selfId rest := by
        simp only [selectedIds, List.filter_cons]
        have hbeq : (some t.status.taskId == selfId) = true := beq_iff_eq.mpr h1
        simp [hbeq]
      rw [hsel]
    · rw [if_neg h1]
      have hbeq : (!(some t.status.taskId == selfId)) = true := by
        simp [h1]
      by_cases h3 : hasActiveRun t
      · rw [if_pos h3, ih hrest (acc ++ [t.status.taskId])]
        have hsel : selectedIds selfId ((t, sched) :: rest) =
            t.status.taskId :: selectedIds selfId rest := by
          simp only [selectedIds, List.filter_cons]
          simp [hbeq, h3]
        rw [hsel, List.append_assoc, List.singleton_append]
      · rw [if_neg h3, ih hrest acc]
        have hsel : selectedIds selfId ((t, sched) :: rest) =
            selectedIds selfId rest := by
          simp only [selectedIds, List.filter_cons]
          simp [h3]
        rw [hsel]

/-- C5: when the currently executing task is among the discovered
candidate tasks -- if its hook firing was scheduled, the sweep returns
immediately having cancelled nothing; if it was manually triggered, only
the self task is skipped and every other candidate with a pending or
running run is cancelled (in discovery order), completed/failed/exception
tasks being left untouched. -/
theorem c5_self_protection (env : CancelEnv)
    (items : List (CandidateTask × Bool)) (endm : IterEnd)
    (hiter : iterTasksByHook env = (items, endm)) :
    ((∃ tb ∈ items, tb.2 = true ∧ some tb.1.status.taskId = env.selfTaskId) →
      cancel_tasks env = Except.ok []) ∧
    ((∀ tb ∈ items, some tb.1.status.taskId = env.selfTaskId → tb.2 = false) →
      (endm = IterEnd.finished ∨ endm = IterEnd.hookMissing) →
      cancel_tasks env = Except.ok
        ((selectedIds env.selfTaskId items).map
          (fun id => (id, env.cancelOk id)))) := by
  constructor
  · intro hex
    simp only [cancel_tasks, hiter]
    rw [collectCancellations_none env.selfTaskId items hex []]
  · intro hall hend
    simp only [cancel_tasks, hiter]
    rw [collectCancellations_some env.selfTaskId items hall []]
    rcases hend with h | h <;> rw [h] <;> simp

/-- A sweep environment: one successful manual firing whose task group
holds the running self task, a pending task and a completed task. -/
def c5Env : CancelEnv :=
  { selfTaskId := some "self"
    lastFires := Except.ok [⟨"group1", "success", "triggerHook"⟩]
    taskGroup := fun g =>
      if g == "group1" then
        Except.ok
          [⟨⟨"self", [⟨"running"⟩]⟩⟩, ⟨⟨"t2", [⟨"pending"⟩]⟩⟩,
           ⟨⟨"t3", [⟨"completed"⟩]⟩⟩]
      else Except.error (TCError.other "unexpected group")
    cancelOk := fun _ => true }

/-- The items c5Env's sweep discovers. -/
def c5Items : List (CandidateTask × Bool) :=
  [(⟨⟨"self", [⟨"running"⟩]⟩⟩, false), (⟨⟨"t2", [⟨"pending"⟩]⟩⟩, false),
   (⟨⟨"t3", [⟨"completed"⟩]⟩⟩, false)]

/-- The same environment with the firing scheduled instead of manual. -/
def c5SchedEnv : CancelEnv :=
  { c5Env with
    lastFires := Except.ok [⟨"group1", "success", "schedule"⟩] }

/-- The items c5SchedEnv's sweep discovers. -/
def c5SchedItems : List (CandidateTask × Bool) :=
  [(⟨⟨"self", [⟨"running"⟩]⟩⟩, true), (⟨⟨"t2", [⟨"pending"⟩]⟩⟩, true),
   (⟨⟨"t3", [⟨"completed"⟩]⟩⟩, true)]

/-- C5 witness: on the manual-trigger environment exactly the pending
non-self task is cancelled; on the scheduled environment nothing is. -/
theorem c5_self_protection_witness :
    cancel_tasks c5Env = Except.ok [("t2", true)] ∧
    cancel_tasks c5SchedEnv = Except.ok [] :=
  ⟨((c5_self_protection c5Env c5Items IterEnd.finished rfl).2
      (by decide) (Or.inl rfl)).trans rfl,
   (c5_self_protection c5SchedEnv c5SchedItems IterEnd.finished rfl).1
      (by decide)⟩

/-- C6: a "no task-group" failure on one firing's group is treated as an
empty group (the remaining firings are processed as if that firing were
absent); a "no such hook" failure ends the sweep normally with zero
cancellations; any other listTaskGroup failure propagates; and which task
ids get a cancelTask call does not depend on which cancelTask calls
fail -- a failed cancellation is logged and the loop continues. -/
theorem c6_collaborator_failures (env : CancelEnv) (fire : HookFire)
    (rest : List HookFire) (m : String) :
    (fire.result = "success" →
      env.taskGroup fire.taskId = Except.error TCError.noTaskGroup →
      fireItems env.taskGroup (fire :: rest) = fireItems env.taskGroup rest) ∧
    (env.lastFires = Except.error TCError.noSuchHook →
      cancel_tasks env = Except.ok []) ∧
    (env.lastFires = Except.ok (fire :: rest) →
      fire.result = "success" →
      env.taskGroup fire.taskId = Except.error (TCError.other m) →
      cancel_tasks env = Except.error (TCError.other m)) ∧
    (∀ g : String → Bool,
      (cancel_tasks env).map (List.map Prod.fst) =
        (cancel_tasks { env with cancelOk := g }).map (List.map Prod.fst)) := by
  refine ⟨?_, ?_, ?_, ?_⟩
  · intro hs hg
    simp [fireItems, hs, hg]
  · intro h
    simp [cancel_tasks, iterTasksByHook, h, collectCancellations]
  · intro hf hs hg
    simp [cancel_tasks, iterTasksByHook, hf, fireItems, hs, hg,
      collectCancellations]
  · intro g
    have hred : cancel_tasks { env with cancelOk := g } =
        (match collectCancellations env.selfTaskId (iterTasksByHook env).1 [] with
         | none => Except.ok []
         | some selected =>
           match (iterTasksByHook env).2 with
           | IterEnd.failed e => Except.error e
           | _ => Except.ok (selected.map (fun id => (id, g id)))) := rfl
    rw [hred]
    simp only [cancel_tasks]
    cases hcol : collectCancellations env.selfTaskId (iterTasksByHook env).1 [] with
    | none => simp [hcol]
    | some selected =>
      cases hend : (iterTasksByHook env).2 with
      | failed e => simp [hcol, hend]
      | finished => simp [hcol, hend, Except.map, List.map_map, Function.comp]
      | hookMissing => simp [hcol, hend, Except.map, List.map_map, Function.comp]

/-- Environment whose first firing's group has expired. -/
def c6EnvA : CancelEnv :=
  { selfTaskId := none
    lastFires := Except.ok
      [⟨"groupA", "success", "schedule"⟩, ⟨"groupB", "success", "schedule"⟩]
    taskGroup := fun g =>
      if g == "groupA" then Except.error TCError.noTaskGroup
      else Except.ok [⟨⟨"t9", [⟨"pending"⟩]⟩⟩]
    cancelOk := fun _ => true }

/-- Environment whose worker type has no hook. -/
def c6EnvB : CancelEnv :=
  { c6EnvA with lastFires := Except.error TCError.noSuchHook }

/-- Environment whose group listing fails with an unexpected error. -/
def c6EnvC : CancelEnv :=
  { selfTaskId := none
    lastFires := Except.ok [⟨"groupA", "success", "schedule"⟩]
    taskGroup := fun _ => Except.error (TCError.other "boom")
    cancelOk := fun _ => true }

/-- C6 witness: the three failure behaviours evaluated on concrete
environments. -/
theorem c6_collaborator_failures_witness :
    fireItems c6EnvA.taskGroup
        [⟨"groupA", "success", "schedule"⟩, ⟨"groupB", "success", "schedule"⟩] =
      fireItems c6EnvA.taskGroup [⟨"groupB", "success", "schedule"⟩] ∧
    cancel_tasks c6EnvB = Except.ok [] ∧
    cancel_tasks c6EnvC = Except.error (TCError.other "boom") :=
  ⟨(c6_collaborator_failures c6EnvA ⟨"groupA", "success", "schedule"⟩
      [⟨"groupB", "success", "schedule"⟩] "boom").1 rfl rfl,
   (c6_collaborator_failures c6EnvB ⟨"groupA", "success", "schedule"⟩ [] "boom").2.1
      rfl,
   (c6_collaborator_failures c6EnvC ⟨"groupA", "success", "schedule"⟩ [] "boom").2.2.1
      rfl rfl rfl⟩

/-! ### C9: loader shape dispatch -/

/-- C9: from_file returns a PoolConfiguration when the document's key set
fits the single-pool schema, a PoolConfigMap when it fits only the
pool-map schema, and raises when it fits neither; moreover, under the two
schemas no key set can fit both shapes (a pool map requires apply_to,
which the single-pool schema does not admit), so the ambiguity case never
arises and each returned class is the unique fitting one. -/
theorem c9_loader_dispatch (keys : List String) :
    (fitsSchema poolConfigurationSchema keys = true →
      from_file keys = Except.ok LoadedKind.configuration) ∧
    (fitsSchema poolConfigurationSchema keys = false →
      fitsSchema poolConfigMapSchema keys = true →
      from_file keys = Except.ok LoadedKind.configMap) ∧
    (fitsSchema poolConfigurationSchema keys = false →
      fitsSchema poolConfigMapSchema keys = false →
      from_file keys = Except.error "pool type could not be identified") ∧
    ¬(fitsSchema poolConfigurationSchema keys = true ∧
      fitsSchema poolConfigMapSchema keys = true) := by
  refine ⟨?_, ?_, ?_, ?_⟩
  · intro h1
    simp [from_file, h1]
  · intro h1 h2
    simp [from_file, h1, h2]
  · intro h1 h2
    simp [from_file, h1, h2]
  · rintro ⟨h1, h2⟩
    rw [fitsSchema, Bool.and_eq_true] at h1 h2
    have happ : keys.contains "apply_to" = true :=
      List.all_eq_true.mp h2.2 "apply_to" (by decide)
    have hmem : "apply_to" ∈ keys := by
      simpa using happ
    have : poolConfigurationSchema.fieldTypes.contains "apply_to" = true :=
      List.all_eq_true.mp h1.1 "apply_to" hmem
    exact absurd this (by decide)

/-- A key set fitting only the single-pool schema. -/
def keysSingle : List String := poolConfigurationSchema.required

/-- A key set fitting only the pool-map schema. -/
def keysMap : List String := poolConfigMapSchema.required

/-- A key set fitting neither schema. -/
def keysBad : List String := ["bogus"]

/-- C9 witness: the three dispatch outcomes on concrete key sets. -/
theorem c9_loader_dispatch_witness :
    from_file keysSingle = Except.ok LoadedKind.configuration ∧
    from_file keysMap = Except.ok LoadedKind.configMap ∧
    from_file keysBad = Except.error "pool type could not be identified" :=
  ⟨(c9_loader_dispatch keysSingle).1 (by decide),
   (c9_loader_dispatch keysMap).2.1 (by decide) (by decide),
   (c9_loader_dispatch keysBad).2.2.1 (by decide) (by decide)⟩

/-! ### C10: dry-run performs no writes -/

/-- C10: with dry_run set, queue_reduction_task returns before any
collaborator call, and the whole effect trace of ReductionMonitor.run
contains no createTask and no update_testcase_quality call -- only read
and list operations reach the queue and crash-tracking services. -/
theorem c10_dry_run_no_writes (d : MonitorData) :
    (∀ osName : String, ∀ crashId : Nat,
      queue_reduction_task true d osName crashId = []) ∧
    (ReductionMonitor.run true d).all (fun e => !e.isWrite) = true := by
  constructor
  · intro osName crashId
    rfl
  · have hsel : ∀ r : ReducibleCrash, selectionStep true d r = [] := by
      intro r
      simp [selectionStep, queue_reduction_task]
    have hfirst : ∀ c : CrashRecord,
        (if !true then [MonitorEffect.updateQuality c.id QUALITY_NOT_REPRODUCIBLE]
         else ([] : List MonitorEffect)) = [] := by
      intro c
      simp
    simp [ReductionMonitor.run, fuzzmanagerGetCrashesEffects, hsel, hfirst,
      MonitorEffect.isWrite, List.all_append, List.all_map, Function.comp]

end Orion

